import Mathlib

/-!
Shallow embedding of the story-generator app (src/app.py) and proofs of its
specified properties.

The app has four functions of interest:
  stylize_text            (app.py lines 79-91)
  generate_story_with_api (app.py lines 94-114)
  generate_story_offline  (app.py lines 117-132)
  generate_response       (app.py lines 135-140)

Modelling decisions:
  - Python string primitives used by the code (str.lower, str.strip,
    str.replace, str.join) are translated as structural functions over the
    character list of a string, so that they evaluate inside the kernel.
    str.lower and str.strip are translated at ASCII level, which agrees with
    Python on all strings the claims mention.
  - random.random() draws are an explicit stream rs : Nat -> Rat of values,
    assumed in [0,1) where a claim needs it; a draw is consumed exactly when
    the corresponding device is selected, mirroring the short-circuit
    evaluation of the Python conditionals.
  - random.sample(parts, k) is modelled by sample: an adversarial list of
    index picks chooses, k times, one of the remaining elements.  Every
    possible output of random.sample is a possible output of sample.
  - The OpenAI client call is a parameter svc; a raised exception is the
    Except.error case carrying the exception message, mirroring the broad
    try/except of the code.  The global client presence is a Bool parameter.
-/

/-- Translation of Python str.lower for one ASCII character. -/
def lowerChar (c : Char) : Char :=
  if 'A' ≤ c ∧ c ≤ 'Z' then Char.ofNat (c.toNat + 32) else c

/-- Translation of Python str.lower (ASCII range). -/
def strLower (s : String) : String := String.mk (s.data.map lowerChar)

/-- Python whitespace characters stripped by str.strip(). -/
def isWS (c : Char) : Bool :=
  c = ' ' || c = '\t' || c = '\n' || c = '\r' || c = '\x0b' || c = '\x0c'

/-- Translation of Python str.strip(): drop whitespace at both ends. -/
def strTrim (s : String) : String :=
  String.mk (((s.data.dropWhile isWS).reverse.dropWhile isWS).reverse)

/-- Translation of Python sep.join(l). -/
def joinSep (sep : String) : List String → String
  | [] => ""
  | [x] => x
  | x :: xs => x ++ sep ++ joinSep sep xs

/-- Translation of Python str.replace on character lists: replace the
non-overlapping occurrences of pat left to right, continuing after each
replaced occurrence.  The code only calls it with the nonempty pattern
"strong". -/
def replaceAux (pat rep : List Char) : Nat → List Char → List Char
  | _, [] => []
  | skip + 1, _ :: cs => replaceAux pat rep skip cs
  | 0, c :: cs =>
    if pat ≠ [] ∧ pat.isPrefixOf (c :: cs) then
      rep ++ replaceAux pat rep (pat.length - 1) cs
    else
      c :: replaceAux pat rep 0 cs

/-- Entry point of the replacement scan. -/
def replaceAll (pat rep s : List Char) : List Char := replaceAux pat rep 0 s

/-- Translation of Python text.replace(old, new) on strings. -/
def strReplace (s pat rep : String) : String :=
  String.mk (replaceAll pat.data rep.data s.data)

/-- Decidable check that pat occurs as a contiguous substring of s. -/
def occursB (pat : List Char) : List Char → Bool
  | [] => pat.isEmpty
  | c :: cs => pat.isPrefixOf (c :: cs) || occursB pat cs

/-- One chat message sent to the completion endpoint. -/
structure ChatMessage where
  role : String
  content : String

/-- The completion service (client.chat.completions.create): given the model
name, the message list and the temperature, it either raises (error message)
or returns the contents of the completion choices. -/
def Service : Type := String → List ChatMessage → ℚ → Except String (List String)

/-- The fixed 4-sentence pool of the offline generator (app.py lines 123-128). -/
def parts : List String :=
  ["Once upon a time, there was a spark of hope that refused to fade.",
   "In the quiet corners of the city, whispers of change began to rise.",
   "The journey was long, but every challenge revealed new strength.",
   "By the end, what seemed impossible became a story worth remembering."]

/-- The sample-count lookup of app.py line 129; none models the KeyError a
dict lookup raises on any other key. -/
def kOf (length : String) : Option Nat :=
  if length = "Short" then some 1
  else if length = "Medium" then some 2
  else if length = "Long" then some 4
  else none

/-- Model of random.sample(pool, k): k times, pick one of the remaining
elements (the index chosen by the head of picks) and remove it. -/
def sample (pool : List String) (picks : List Nat) (k : Nat) : List String :=
  match k, pool with
  | 0, _ => []
  | _ + 1, [] => []
  | k + 1, p :: ps =>
    let i := picks.headD 0 % (p :: ps).length
    (p :: ps).getD i "" :: sample ((p :: ps).eraseIdx i) picks.tail k

/-- Translation of stylize_text (app.py lines 79-91).  The globals style and
creativity are passed as arguments; rs is the stream of random.random()
draws, consumed in evaluation order exactly when the device is selected. -/
def stylize_text (style : List String) (creativity : ℚ) (rs : Nat → ℚ)
    (text : String) : String :=
  let s0 : String × Nat := (text, 0)
  let s1 : String × Nat :=
    if "Metaphor" ∈ style then
      (if rs s0.2 < creativity then
        s0.1 ++ " It’s like painting with light and shadow." else s0.1,
       s0.2 + 1)
    else s0
  let s2 : String × Nat :=
    if "Alliteration" ∈ style then
      (if rs s1.2 < creativity then
        strReplace s1.1 "strong" "swift and steady" else s1.1,
       s1.2 + 1)
    else s1
  let s3 : String × Nat :=
    if "Rule of Three" ∈ style then
      (if rs s2.2 < creativity then
        s2.1 ++ " Balance, rhythm, and resonance." else s2.1,
       s2.2 + 1)
    else s2
  let s4 : String × Nat :=
    if "Rhetorical Question" ∈ style then
      (if rs s3.2 < creativity then
        s3.1 ++ " What could be more inspiring?" else s3.1,
       s3.2 + 1)
    else s3
  let s5 : String × Nat :=
    if "Sensory Detail" ∈ style then
      (if rs s4.2 < creativity then
        s4.1 ++ " You can almost feel the warmth in every word." else s4.1,
       s4.2 + 1)
    else s4
  s5.1

/-- The instruction string built by generate_story_with_api
(app.py lines 99-104). -/
def buildPrompt (role tone text length : String) : String :=
  "You are a " ++ role ++ " writing in a " ++ strLower tone ++ " tone. " ++
  "Write a complete " ++ strLower length ++
  " story based on the prompt below.\n\n" ++
  "Prompt: " ++ text ++ "\n\n" ++
  "Use vivid language, imagination, and emotional flow."

/-- The try/except block of generate_story_with_api (app.py lines 106-114)
as a function of the service outcome: an exception becomes the API-error
string; otherwise the first choice is stripped (an empty choice list would
raise IndexError inside the try, also caught). -/
def apiDispatch : Except String (List String) → String
  | Except.error e => "⚠️ API Error: " ++ e
  | Except.ok [] => "⚠️ API Error: list index out of range"
  | Except.ok (c :: _) => strTrim c

/-- Translation of generate_story_with_api (app.py lines 94-114). -/
def generate_story_with_api (svc : Service) (role tone text : String)
    (creativity : ℚ) (length : String) : String :=
  if strTrim text = "" then "Please enter a prompt."
  else
    apiDispatch
      (svc "gpt-4o-mini" [⟨"user", buildPrompt role tone text length⟩]
        creativity)

/-- Translation of generate_story_offline (app.py lines 117-132). -/
def generate_story_offline (role tone text : String) (creativity : ℚ)
    (length : String) (style : List String) (picks : List Nat)
    (rs : Nat → ℚ) : Option String :=
  if strTrim text = "" then some "Please enter a prompt to start."
  else
    match kOf length with
    | none => none
    | some k =>
      let intro := "From a " ++ strLower role ++
        "\x27s perspective, here\x27s a story about " ++ strLower text ++ ":"
      let body := joinSep "\n\n" (sample parts picks k)
      let styled := stylize_text style creativity rs body
      some (intro ++ "\n\n" ++ styled ++ "\n\n(Written in a " ++
        strLower tone ++ " tone.)")

/-- Translation of generate_response (app.py lines 135-140): route to the
online strategy when the client exists, else to the offline one. -/
def generate_response (clientPresent : Bool) (svc : Service)
    (role tone text : String) (creativity : ℚ) (length : String)
    (style : List String) (picks : List Nat) (rs : Nat → ℚ) : Option String :=
  if clientPresent then
    some (generate_story_with_api svc role tone text creativity length)
  else
    generate_story_offline role tone text creativity length style picks rs

/-- The five writing devices in the order stylize_text checks them. -/
def deviceOrder : List String :=
  ["Metaphor", "Alliteration", "Rule of Three", "Rhetorical Question",
   "Sensory Detail"]

/-- The mutation each device performs, per the spec of stylize_text. -/
def applyDevice (name : String) (t : String) : String :=
  if name = "Metaphor" then t ++ " It’s like painting with light and shadow."
  else if name = "Alliteration" then strReplace t "strong" "swift and steady"
  else if name = "Rule of Three" then t ++ " Balance, rhythm, and resonance."
  else if name = "Rhetorical Question" then t ++ " What could be more inspiring?"
  else if name = "Sensory Detail" then
    t ++ " You can almost feel the warmth in every word."
  else t

/-- Apply the mutations of a list of devices once each, left to right. -/
def applyAll (names : List String) (t : String) : String :=
  names.foldl (fun acc n => applyDevice n acc) t

/-! Helper lemmas about the sampling model. -/

theorem sample_length (k : Nat) :
    ∀ (pool : List String) (picks : List Nat), k ≤ pool.length →
      (sample pool picks k).length = k := by
  induction k with
  | zero => intro pool picks _; simp [sample]
  | succ k ih =>
    intro pool picks hk
    match pool with
    | [] => simp at hk
    | p :: ps =>
      have hlen : 0 < (p :: ps).length := by simp
      have hi : picks.headD 0 % (p :: ps).length < (p :: ps).length :=
        Nat.mod_lt _ hlen
      have he : ((p :: ps).eraseIdx (picks.headD 0 % (p :: ps).length)).length
          = ps.length := by
        rw [List.length_eraseIdx, if_pos hi]; simp
      have hb : k ≤
          ((p :: ps).eraseIdx (picks.headD 0 % (p :: ps).length)).length := by
        rw [he]; simpa using Nat.le_of_succ_le_succ hk
      simp only [sample]
      rw [List.length_cons, ih _ picks.tail hb]

theorem sample_subset (k : Nat) :
    ∀ (pool : List String) (picks : List Nat) (x : String),
      x ∈ sample pool picks k → x ∈ pool := by
  induction k with
  | zero => intro pool picks x hx; simp [sample] at hx
  | succ k ih =>
    intro pool picks x hx
    match pool with
    | [] => simp [sample] at hx
    | p :: ps =>
      have hlen : 0 < (p :: ps).length := by simp
      have hi : picks.headD 0 % (p :: ps).length < (p :: ps).length :=
        Nat.mod_lt _ hlen
      simp only [sample, List.mem_cons] at hx
      rcases hx with hx | hx
      · rw [hx, List.getD_eq_getElem _ _ hi]
        exact List.getElem_mem hi
      · exact List.eraseIdx_subset _ _ (ih _ picks.tail x hx)

theorem not_mem_eraseIdx_self {α : Type} {l : List α} (hnd : l.Nodup)
    {i : Nat} (hi : i < l.length) : l[i] ∉ l.eraseIdx i := by
  rw [List.eraseIdx_eq_take_drop_succ]
  intro hmem
  rcases List.mem_append.mp hmem with hmem | hmem
  · have hd : l[i] ∈ List.drop i l := by
      rw [List.drop_eq_getElem_cons hi]; exact List.mem_cons_self _ _
    exact List.disjoint_take_drop hnd (le_refl i) hmem hd
  · have ht : l[i] ∈ List.take (i + 1) l := by
      rw [List.take_succ]
      refine List.mem_append.mpr (Or.inr ?_)
      simp [List.getElem?_eq_getElem hi]
    exact List.disjoint_take_drop hnd (le_refl (i + 1)) ht hmem

theorem sample_nodup (k : Nat) :
    ∀ (pool : List String) (picks : List Nat), pool.Nodup →
      (sample pool picks k).Nodup := by
  induction k with
  | zero => intro pool picks _; simp [sample]
  | succ k ih =>
    intro pool picks hnd
    match pool with
    | [] => simp [sample]
    | p :: ps =>
      have hlen : 0 < (p :: ps).length := by simp
      have hi : picks.headD 0 % (p :: ps).length < (p :: ps).length :=
        Nat.mod_lt _ hlen
      simp only [sample, List.nodup_cons]
      refine ⟨?_, ih _ picks.tail (List.Nodup.eraseIdx _ hnd)⟩
      rw [List.getD_eq_getElem _ _ hi]
      intro hmem
      exact not_mem_eraseIdx_self hnd hi
        (sample_subset k _ picks.tail _ hmem)

theorem parts_nodup : parts.Nodup := by decide

theorem kOf_cases {length : String} {k : Nat} (hk : kOf length = some k) :
    (length = "Short" ∧ k = 1) ∨ (length = "Medium" ∧ k = 2) ∨
      (length = "Long" ∧ k = 4) := by
  unfold kOf at hk
  split_ifs at hk with h1 h2 h3 <;> simp_all

/-! Helper lemmas about stylize_text. -/

theorem stylize_empty_style (creativity : ℚ) (rs : Nat → ℚ) (text : String) :
    stylize_text [] creativity rs text = text := by
  simp [stylize_text]

theorem stylize_id (style : List String) (rs : Nat → ℚ) (text : String)
    (h : ∀ i, 0 ≤ rs i) : stylize_text style 0 rs text = text := by
  have h' : ∀ i, ¬ rs i < (0 : ℚ) := fun i => not_lt.mpr (h i)
  by_cases h1 : "Metaphor" ∈ style <;>
  by_cases h2 : "Alliteration" ∈ style <;>
  by_cases h3 : "Rule of Three" ∈ style <;>
  by_cases h4 : "Rhetorical Question" ∈ style <;>
  by_cases h5 : "Sensory Detail" ∈ style <;>
  simp [stylize_text, h1, h2, h3, h4, h5, h']

theorem stylize_all (style : List String) (rs : Nat → ℚ) (text : String)
    (h : ∀ i, rs i < 1) :
    stylize_text style 1 rs text =
      applyAll (deviceOrder.filter fun d => decide (d ∈ style)) text := by
  by_cases h1 : "Metaphor" ∈ style <;>
  by_cases h2 : "Alliteration" ∈ style <;>
  by_cases h3 : "Rule of Three" ∈ style <;>
  by_cases h4 : "Rhetorical Question" ∈ style <;>
  by_cases h5 : "Sensory Detail" ∈ style <;>
  simp [stylize_text, applyAll, applyDevice, deviceOrder, h1, h2, h3, h4, h5, h]

/-! Substring occurrence machinery, used to settle the Alliteration claim. -/

/-- pat occurs contiguously inside s. -/
def Occurs (pat s : List Char) : Prop := ∃ p q, s = p ++ pat ++ q

theorem occursB_of_occurs {pat s : List Char} (h : Occurs pat s) :
    occursB pat s = true := by
  obtain ⟨p, q, rfl⟩ := h
  induction p with
  | nil =>
    simp only [List.nil_append]
    cases pat with
    | nil => cases q <;> simp [occursB, List.isPrefixOf]
    | cons c cs =>
      simp only [List.cons_append, occursB, Bool.or_eq_true]
      exact Or.inl ( List.isPrefixOf_iff_prefix.mpr ⟨q, by simp⟩)
  | cons x p' ih =>
    simp only [List.cons_append, occursB, Bool.or_eq_true]
    exact Or.inr (by simpa using ih)

theorem occurs_of_occursB {pat : List Char} :
    ∀ {s : List Char}, occursB pat s = true → Occurs pat s := by
  intro s
  induction s with
  | nil =>
    intro h
    simp [occursB, List.isEmpty_iff] at h
    exact ⟨[], [], by simp [h]⟩
  | cons c cs ih =>
    intro h
    simp only [occursB, Bool.or_eq_true] at h
    rcases h with h | h
    · obtain ⟨t, ht⟩ := List.isPrefixOf_iff_prefix.mp h
      exact ⟨[], t, by simp [← ht]⟩
    · obtain ⟨p, q, hpq⟩ := ih h
      exact ⟨c :: p, q, by simp [hpq]⟩

theorem not_occurs_of_occursB {pat s : List Char}
    (h : occursB pat s = false) : ¬ Occurs pat s := by
  intro hocc
  have h2 := occursB_of_occurs hocc
  rw [h] at h2
  exact Bool.false_ne_true h2

theorem occursB_false_of_not_occurs {pat s : List Char}
    (h : ¬ Occurs pat s) : occursB pat s = false := by
  cases hB : occursB pat s
  · rfl
  · exact absurd (occurs_of_occursB hB) h

theorem not_occurs_append {pat a b : List Char}
    (ha : ¬ Occurs pat a) (hb : ¬ Occurs pat b)
    (hh : ∀ c, b.head? = some c → c ∉ pat) :
    ¬ Occurs pat (a ++ b) := by
  rintro ⟨p, q, hpq⟩
  rw [List.append_assoc] at hpq
  rcases List.append_eq_append_iff.mp hpq with ⟨u, hu1, hu2⟩ | ⟨v, hv1, hv2⟩
  · exact hb ⟨u, q, by rw [hu2, List.append_assoc]⟩
  · rcases List.append_eq_append_iff.mp hv2 with ⟨d, hd1, hd2⟩ | ⟨d, hd1, hd2⟩
    · exact ha ⟨p, d, by rw [hv1, hd1, List.append_assoc]⟩
    · cases d with
      | nil => exact ha ⟨p, [], by simp [hv1, hd1]⟩
      | cons e d' =>
        refine hh e ?_ ?_
        · rw [hd2]; rfl
        · rw [hd1]; exact List.mem_append.mpr (Or.inr (List.mem_cons_self _ _))

theorem head_notin_of_cons {c0 : Char} {l pat : List Char}
    (h : l.head? = some c0) (hn : c0 ∉ pat) :
    ∀ c, l.head? = some c → c ∉ pat := by
  intro c hc
  rw [h] at hc
  injection hc with hc
  subst hc
  exact hn

theorem replaceAll_eq_self (pat rep : List Char) :
    ∀ s, occursB pat s = false → replaceAll pat rep s = s := by
  intro s
  induction s with
  | nil => intro _; simp [replaceAll, replaceAux]
  | cons c cs ih =>
    intro h
    simp only [occursB, Bool.or_eq_false_iff] at h
    have ih' := ih h.2
    unfold replaceAll at ih'
    simp [replaceAll, replaceAux, h.1, ih']

/-! Facts about the fixed sentence pool and the device suffix strings. -/

theorem mem_parts_cases {x : String} (hx : x ∈ parts) :
    x = "Once upon a time, there was a spark of hope that refused to fade." ∨
    x = "In the quiet corners of the city, whispers of change began to rise." ∨
    x = "The journey was long, but every challenge revealed new strength." ∨
    x = "By the end, what seemed impossible became a story worth remembering." := by
  simpa [parts] using hx

theorem parts_no_strong : ∀ x ∈ parts, occursB "strong".data x.data = false := by
  decide

theorem head_ok :
    ∀ x ∈ parts,
      x.data.head?.all (fun c => ! decide (c ∈ "strong".data)) = true := by
  decide

theorem parts_head_not_strong :
    ∀ x ∈ parts, ∀ c, x.data.head? = some c → c ∉ "strong".data := by
  intro x hx c hc
  have h := head_ok x hx
  rw [hc] at h
  simpa using h

theorem joinSep_head_not_strong (y : String) (ys : List String)
    (hy : y ∈ parts) :
    ∀ c, (joinSep "\n\n" (y :: ys)).data.head? = some c →
      c ∉ "strong".data := by
  have hne : y.data ≠ [] := by
    rcases mem_parts_cases hy with h | h | h | h <;> subst h <;> decide
  cases ys with
  | nil => simpa [joinSep] using parts_head_not_strong y hy
  | cons z zs =>
    intro c hc
    have hd : (joinSep "\n\n" (y :: z :: zs)).data =
        y.data ++ ("\n\n".data ++ (joinSep "\n\n" (z :: zs)).data) := by
      rw [show joinSep "\n\n" (y :: z :: zs) =
          (y ++ "\n\n") ++ joinSep "\n\n" (z :: zs) from rfl]
      rw [String.data_append, String.data_append, List.append_assoc]
    rw [hd, List.head?_append_of_ne_nil _ hne] at hc
    exact parts_head_not_strong y hy c hc

theorem join_no_strong : ∀ (s : List String), (∀ x ∈ s, x ∈ parts) →
    ¬ Occurs "strong".data (joinSep "\n\n" s).data := by
  intro s
  induction s with
  | nil =>
    intro _ hocc
    have h := occursB_of_occurs hocc
    rw [show occursB "strong".data (joinSep "\n\n" []).data = false from
      by decide] at h
    exact Bool.false_ne_true h
  | cons x xs ih =>
    intro hmem
    have hx := hmem x (List.mem_cons_self _ _)
    cases xs with
    | nil =>
      intro hocc
      have h := occursB_of_occurs hocc
      rw [show joinSep "\n\n" [x] = x from rfl, parts_no_strong x hx] at h
      exact Bool.false_ne_true h
    | cons y ys =>
      intro hocc
      have hd : (joinSep "\n\n" (x :: y :: ys)).data =
          (x ++ "\n\n").data ++ (joinSep "\n\n" (y :: ys)).data := by
        rw [show joinSep "\n\n" (x :: y :: ys) =
            (x ++ "\n\n") ++ joinSep "\n\n" (y :: ys) from rfl]
        rw [String.data_append]
      rw [hd] at hocc
      have ha : ¬ Occurs "strong".data (x ++ "\n\n").data := by
        rw [String.data_append]
        refine not_occurs_append (not_occurs_of_occursB (parts_no_strong x hx))
          (not_occurs_of_occursB (by decide)) ?_
        exact head_notin_of_cons
          (show ("\n\n" : String).data.head? = some '\n' from by decide)
          (by decide)
      have hb : ¬ Occurs "strong".data (joinSep "\n\n" (y :: ys)).data :=
        ih (fun z hz => hmem z (List.mem_cons_of_mem _ hz))
      exact not_occurs_append ha hb
        (joinSep_head_not_strong y ys (hmem y (List.mem_cons_of_mem _
          (List.mem_cons_self _ _)))) hocc

theorem strReplace_id {t : String}
    (h : occursB "strong".data t.data = false) :
    strReplace t "strong" "swift and steady" = t := by
  unfold strReplace
  rw [replaceAll_eq_self _ _ _ h]

/-! The claim theorems. -/

/-- Claim C1: for every offline call with a non-empty (after trimming) prompt and a
valid length, the body joined into the result is exactly the sampled list of
sentences, whose count is 1, 2 or 4 for Short, Medium or Long, every sentence
is drawn from the fixed 4-sentence pool, and no sentence repeats. -/
theorem claim_C1_offline_body (role tone text : String) (creativity : ℚ)
    (length : String) (k : Nat) (style : List String) (picks : List Nat)
    (rs : Nat → ℚ) (ht : strTrim text ≠ "") (hk : kOf length = some k) :
    ∃ s : List String,
      sample parts picks k = s ∧ s.length = k ∧ s.Nodup ∧
      (∀ x ∈ s, x ∈ parts) ∧
      ((length = "Short" ∧ k = 1) ∨ (length = "Medium" ∧ k = 2) ∨
        (length = "Long" ∧ k = 4)) ∧
      generate_story_offline role tone text creativity length style picks rs =
        some ("From a " ++ strLower role ++
          "\x27s perspective, here\x27s a story about " ++ strLower text ++
          ":" ++ "\n\n" ++
          stylize_text style creativity rs (joinSep "\n\n" (sample parts picks k)) ++
          "\n\n(Written in a " ++ strLower tone ++ " tone.)") := by
  have hlk := kOf_cases hk
  have hk4 : k ≤ parts.length := by
    rcases hlk with ⟨_, rfl⟩ | ⟨_, rfl⟩ | ⟨_, rfl⟩ <;> decide
  refine ⟨sample parts picks k, rfl, sample_length k parts picks hk4,
    sample_nodup k parts picks parts_nodup,
    fun x hx => sample_subset k parts picks x hx, hlk, ?_⟩
  unfold generate_story_offline
  rw [if_neg ht, hk]

/-- Claim C1 witness: a concrete offline call exercising the theorem. -/
theorem claim_C1_offline_body_witness :
    strTrim "hi" ≠ "" ∧ kOf "Medium" = some 2 ∧
    (∃ s : List String,
      sample parts [] 2 = s ∧ s.length = 2 ∧ s.Nodup ∧
      (∀ x ∈ s, x ∈ parts) ∧
      (("Medium" = "Short" ∧ 2 = 1) ∨ ("Medium" = "Medium" ∧ 2 = 2) ∨
        ("Medium" = "Long" ∧ 2 = 4)) ∧
      generate_story_offline "Poet" "Neutral" "hi" 0 "Medium" [] []
          (fun _ => 0) =
        some ("From a " ++ strLower "Poet" ++
          "\x27s perspective, here\x27s a story about " ++ strLower "hi" ++
          ":" ++ "\n\n" ++
          stylize_text [] 0 (fun _ => 0) (joinSep "\n\n" (sample parts [] 2)) ++
          "\n\n(Written in a " ++ strLower "Neutral" ++ " tone.)")) :=
  ⟨by decide, by decide,
    claim_C1_offline_body "Poet" "Neutral" "hi" 0 "Medium" 2 [] []
      (fun _ => 0) (by decide) (by decide)⟩

/-- Claim C2: for every offline call with creativity 1 and a non-empty prompt,
the styled body applies the mutation of each selected device exactly once,
in the fixed order Metaphor, Alliteration, Rule of Three, Rhetorical
Question, Sensory Detail, no device twice. -/
theorem claim_C2_all_devices (role tone text : String) (length : String)
    (k : Nat) (style : List String) (picks : List Nat) (rs : Nat → ℚ)
    (ht : strTrim text ≠ "") (hk : kOf length = some k)
    (hr : ∀ i, rs i < 1) :
    generate_story_offline role tone text 1 length style picks rs =
      some ("From a " ++ strLower role ++
        "\x27s perspective, here\x27s a story about " ++ strLower text ++
        ":" ++ "\n\n" ++
        applyAll (deviceOrder.filter fun d => decide (d ∈ style))
          (joinSep "\n\n" (sample parts picks k)) ++
        "\n\n(Written in a " ++ strLower tone ++ " tone.)") := by
  unfold generate_story_offline
  rw [if_neg ht, hk]
  show some ("From a " ++ strLower role ++
      "\x27s perspective, here\x27s a story about " ++ strLower text ++
      ":" ++ "\n\n" ++
      stylize_text style 1 rs (joinSep "\n\n" (sample parts picks k)) ++
      "\n\n(Written in a " ++ strLower tone ++ " tone.)") = _
  rw [stylize_all style rs _ hr]

/-- Claim C2 witness: all five devices selected, creativity 1, draws all 0. -/
theorem claim_C2_all_devices_witness :
    strTrim "hi" ≠ "" ∧ kOf "Short" = some 1 ∧
    (∀ i : Nat, (fun _ : Nat => (0 : ℚ)) i < 1) ∧
    generate_story_offline "Poet" "Neutral" "hi" 1 "Short" deviceOrder [0]
        (fun _ => 0) =
      some ("From a " ++ strLower "Poet" ++
        "\x27s perspective, here\x27s a story about " ++ strLower "hi" ++
        ":" ++ "\n\n" ++
        applyAll (deviceOrder.filter fun d => decide (d ∈ deviceOrder))
          (joinSep "\n\n" (sample parts [0] 1)) ++
        "\n\n(Written in a " ++ strLower "Neutral" ++ " tone.)") :=
  ⟨by decide, by decide, fun _ => by norm_num,
    claim_C2_all_devices "Poet" "Neutral" "hi" "Short" 1 deviceOrder [0]
      (fun _ => 0) (by decide) (by decide) (fun _ => by norm_num)⟩

/-- Claim C3: for every offline call with creativity 0 and a non-empty prompt,
no suffix is appended and no substitution happens: the styled body equals
the sampled body, whatever the selected devices and the draws. -/
theorem claim_C3_no_mutation (role tone text : String) (length : String)
    (k : Nat) (style : List String) (picks : List Nat) (rs : Nat → ℚ)
    (ht : strTrim text ≠ "") (hk : kOf length = some k)
    (hr : ∀ i, 0 ≤ rs i) :
    generate_story_offline role tone text 0 length style picks rs =
      some ("From a " ++ strLower role ++
        "\x27s perspective, here\x27s a story about " ++ strLower text ++
        ":" ++ "\n\n" ++ joinSep "\n\n" (sample parts picks k) ++
        "\n\n(Written in a " ++ strLower tone ++ " tone.)") := by
  unfold generate_story_offline
  rw [if_neg ht, hk]
  show some ("From a " ++ strLower role ++
      "\x27s perspective, here\x27s a story about " ++ strLower text ++
      ":" ++ "\n\n" ++
      stylize_text style 0 rs (joinSep "\n\n" (sample parts picks k)) ++
      "\n\n(Written in a " ++ strLower tone ++ " tone.)") = _
  rw [stylize_id style rs _ hr]

/-- Claim C3 witness: all devices selected yet nothing mutates at creativity 0. -/
theorem claim_C3_no_mutation_witness :
    strTrim "hi" ≠ "" ∧ kOf "Long" = some 4 ∧
    (∀ i : Nat, 0 ≤ (fun _ : Nat => (0 : ℚ)) i) ∧
    generate_story_offline "Poet" "Neutral" "hi" 0 "Long" deviceOrder [1, 2]
        (fun _ => 0) =
      some ("From a " ++ strLower "Poet" ++
        "\x27s perspective, here\x27s a story about " ++ strLower "hi" ++
        ":" ++ "\n\n" ++ joinSep "\n\n" (sample parts [1, 2] 4) ++
        "\n\n(Written in a " ++ strLower "Neutral" ++ " tone.)") :=
  ⟨by decide, by decide, fun _ => by norm_num,
    claim_C3_no_mutation "Poet" "Neutral" "hi" "Long" 4 deviceOrder [1, 2]
      (fun _ => 0) (by decide) (by decide) (fun _ => by norm_num)⟩

/-- Claim C4: if the service call raises with message m on a non-empty prompt, the
online strategy returns the API-error string and never propagates. -/
theorem claim_C4_api_error (svc : Service) (role tone text : String)
    (creativity : ℚ) (length m : String) (ht : strTrim text ≠ "")
    (he : svc "gpt-4o-mini" [⟨"user", buildPrompt role tone text length⟩]
      creativity = Except.error m) :
    generate_story_with_api svc role tone text creativity length =
      "⚠️ API Error: " ++ m := by
  unfold generate_story_with_api
  rw [if_neg ht, he]
  rfl

/-- Claim C4 witness: a service raising "rate limited" yields exactly the
spec example string. -/
theorem claim_C4_api_error_witness :
    strTrim "a story" ≠ "" ∧
    ((fun _ _ _ => Except.error "rate limited" : Service) "gpt-4o-mini"
        [⟨"user", buildPrompt "Poet" "Formal" "a story" "Short"⟩] 1 =
      Except.error "rate limited") ∧
    generate_story_with_api (fun _ _ _ => Except.error "rate limited") "Poet"
        "Formal" "a story" 1 "Short" = "⚠️ API Error: " ++ "rate limited" ∧
    "⚠️ API Error: " ++ "rate limited" = "⚠️ API Error: rate limited" :=
  ⟨by decide, rfl,
    claim_C4_api_error (fun _ _ _ => Except.error "rate limited") "Poet"
      "Formal" "a story" 1 "Short" "rate limited" (by decide) rfl,
    by decide⟩

/-- Claim C5: on an empty or whitespace-only prompt, the online strategy returns
"Please enter a prompt.", the offline strategy returns "Please enter a
prompt to start.", and the online result is independent of the service (no
external call is made). -/
theorem claim_C5_empty_prompt (svc : Service) (role tone text : String)
    (creativity : ℚ) (length : String) (style : List String)
    (picks : List Nat) (rs : Nat → ℚ) (h : strTrim text = "") :
    generate_story_with_api svc role tone text creativity length =
      "Please enter a prompt." ∧
    generate_story_offline role tone text creativity length style picks rs =
      some "Please enter a prompt to start." ∧
    (∀ s₂ : Service, generate_story_with_api s₂ role tone text creativity
      length = generate_story_with_api svc role tone text creativity length) := by
  refine ⟨?_, ?_, ?_⟩ <;>
    simp [generate_story_with_api, generate_story_offline, h]

/-- Claim C5 witness: a whitespace-only prompt. -/
theorem claim_C5_empty_prompt_witness :
    strTrim " \n " = "" ∧
    (generate_story_with_api (fun _ _ _ => Except.ok []) "Poet" "Formal"
        " \n " 1 "Short" = "Please enter a prompt." ∧
    generate_story_offline "Poet" "Formal" " \n " 1 "Short" [] [] (fun _ => 0) =
      some "Please enter a prompt to start." ∧
    (∀ s₂ : Service, generate_story_with_api s₂ "Poet" "Formal" " \n " 1
        "Short" =
      generate_story_with_api (fun _ _ _ => Except.ok []) "Poet" "Formal"
        " \n " 1 "Short")) :=
  ⟨by decide,
    claim_C5_empty_prompt (fun _ _ _ => Except.ok []) "Poet" "Formal" " \n " 1
      "Short" [] [] (fun _ => 0) (by decide)⟩

/-- Claim C10: with a client present, the result does not depend on the selected
writing devices (nor on any offline randomness): two requests differing only
there produce the same result from the same service. -/
theorem claim_C10_devices_noninterference (svc : Service)
    (role tone text : String) (creativity : ℚ) (length : String)
    (style₁ style₂ : List String) (picks₁ picks₂ : List Nat)
    (rs₁ rs₂ : Nat → ℚ) :
    generate_response true svc role tone text creativity length style₁
        picks₁ rs₁ =
      generate_response true svc role tone text creativity length style₂
        picks₂ rs₂ := by
  simp [generate_response]

/-- Claim C6: on a non-empty prompt the online strategy sends a single user message
equal to the fixed instruction string (role verbatim, tone and length
lowercased, the prompt after a blank line, the closing line after another),
with temperature = creativity, and returns the trimmed first choice; the
Comedian/Formal example message contains the two expected substrings. -/
theorem claim_C6_prompt_construction (svc : Service) (role tone text : String)
    (creativity : ℚ) (length : String) (c : String) (rest : List String)
    (ht : strTrim text ≠ "")
    (hok : svc "gpt-4o-mini" [⟨"user", buildPrompt role tone text length⟩]
      creativity = Except.ok (c :: rest)) :
    generate_story_with_api svc role tone text creativity length = strTrim c ∧
    buildPrompt role tone text length =
      "You are a " ++ role ++ " writing in a " ++ strLower tone ++
      " tone. Write a complete " ++ strLower length ++
      " story based on the prompt below.\n\nPrompt: " ++ text ++
      "\n\nUse vivid language, imagination, and emotional flow." ∧
    (∃ pre post, buildPrompt "Comedian" "Formal" "a robot learning to laugh"
        "Medium" =
      pre ++ "You are a Comedian writing in a formal tone." ++ post) ∧
    (∃ pre post, buildPrompt "Comedian" "Formal" "a robot learning to laugh"
        "Medium" =
      pre ++ "Prompt: a robot learning to laugh" ++ post) := by
  refine ⟨?_, ?_, ?_, ?_⟩
  · unfold generate_story_with_api
    rw [if_neg ht, hok]
    rfl
  · unfold buildPrompt
    rw [String.append_assoc _ " tone. " "Write a complete ",
      (by decide : (" tone. " : String) ++ "Write a complete " =
        " tone. Write a complete "),
      String.append_assoc _ " story based on the prompt below.\n\n" "Prompt: ",
      (by decide : (" story based on the prompt below.\n\n" : String) ++
        "Prompt: " = " story based on the prompt below.\n\nPrompt: "),
      String.append_assoc _ "\n\n"
        "Use vivid language, imagination, and emotional flow.",
      (by decide : ("\n\n" : String) ++
        "Use vivid language, imagination, and emotional flow." =
        "\n\nUse vivid language, imagination, and emotional flow.")]
  · exact ⟨"", " Write a complete medium story based on the prompt below.\n\nPrompt: a robot learning to laugh\n\nUse vivid language, imagination, and emotional flow.",
      by decide⟩
  · exact ⟨"You are a Comedian writing in a formal tone. Write a complete medium story based on the prompt below.\n\n",
      "\n\nUse vivid language, imagination, and emotional flow.", by decide⟩

/-- Claim C6 witness: the mocked service of the spec example. -/
theorem claim_C6_prompt_construction_witness :
    strTrim "a robot learning to laugh" ≠ "" ∧
    ((fun _ _ _ => Except.ok ["A tale unfolds."] : Service) "gpt-4o-mini"
        [⟨"user", buildPrompt "Comedian" "Formal" "a robot learning to laugh"
          "Medium"⟩] (1 / 2) =
      Except.ok ("A tale unfolds." :: [])) ∧
    (generate_story_with_api (fun _ _ _ => Except.ok ["A tale unfolds."])
        "Comedian" "Formal" "a robot learning to laugh" (1 / 2) "Medium" =
      strTrim "A tale unfolds." ∧
    buildPrompt "Comedian" "Formal" "a robot learning to laugh" "Medium" =
      "You are a " ++ "Comedian" ++ " writing in a " ++ strLower "Formal" ++
      " tone. Write a complete " ++ strLower "Medium" ++
      " story based on the prompt below.\n\nPrompt: " ++
      "a robot learning to laugh" ++
      "\n\nUse vivid language, imagination, and emotional flow." ∧
    (∃ pre post, buildPrompt "Comedian" "Formal" "a robot learning to laugh"
        "Medium" =
      pre ++ "You are a Comedian writing in a formal tone." ++ post) ∧
    (∃ pre post, buildPrompt "Comedian" "Formal" "a robot learning to laugh"
        "Medium" =
      pre ++ "Prompt: a robot learning to laugh" ++ post)) :=
  ⟨by decide, rfl,
    claim_C6_prompt_construction (fun _ _ _ => Except.ok ["A tale unfolds."])
      "Comedian" "Formal" "a robot learning to laugh" (1 / 2) "Medium"
      "A tale unfolds." [] (by decide) rfl⟩

/-- Joining a single sentence is that sentence. -/
theorem joinSep_single (sep z : String) : joinSep sep [z] = z := rfl

/-- The single draw Short performs. -/
theorem sample_parts_one (picks : List Nat) :
    sample parts picks 1 = [parts.getD (picks.headD 0 % 4) ""] := rfl

/-- Claim C7: the end-to-end offline example: role Poet, tone Playful, length
Short, creativity 0, no devices, prompt "two explorers on Mars"; the result
is the intro, a blank line, one sentence of the pool, a blank line and the
tone note. -/
theorem claim_C7_end_to_end (picks : List Nat) (rs : Nat → ℚ) :
    ∃ s ∈ parts,
      generate_story_offline "Poet" "Playful" "two explorers on Mars" 0
          "Short" [] picks rs =
        some ("From a poet\x27s perspective, here\x27s a story about two explorers on mars:\n\n"
          ++ s ++ "\n\n(Written in a playful tone.)") := by
  have hi : picks.headD 0 % 4 < 4 := Nat.mod_lt _ (by decide)
  refine ⟨parts.getD (picks.headD 0 % 4) "", ?_, ?_⟩
  · rw [List.getD_eq_getElem parts "" hi]
    exact List.getElem_mem (show picks.headD 0 % 4 < parts.length from hi)
  · unfold generate_story_offline
    rw [if_neg (by decide : ¬ (strTrim "two explorers on Mars" = "")),
      (by decide : kOf "Short" = some 1)]
    show some ("From a " ++ strLower "Poet" ++
        "\x27s perspective, here\x27s a story about " ++
        strLower "two explorers on Mars" ++ ":" ++ "\n\n" ++
        stylize_text [] 0 rs (joinSep "\n\n" (sample parts picks 1)) ++
        "\n\n(Written in a " ++ strLower "Playful" ++ " tone.)") = _
    rw [stylize_empty_style, sample_parts_one, joinSep_single,
      (by decide : strLower "Poet" = "poet"),
      (by decide : strLower "two explorers on Mars" =
        "two explorers on mars"),
      (by decide : strLower "Playful" = "playful"),
      String.append_assoc _ "\n\n(Written in a " "playful",
      (by decide : ("\n\n(Written in a " : String) ++ "playful" =
        "\n\n(Written in a playful"),
      String.append_assoc _ "\n\n(Written in a playful" " tone.)",
      (by decide : ("\n\n(Written in a playful" : String) ++ " tone.)" =
        "\n\n(Written in a playful tone.)")]
    rfl

/-- Two result strings with distinct fixed openings are never equal. -/
theorem error_ne_offline (a b : String) :
    "⚠️ API Error: " ++ a ≠ "From a " ++ b := by
  intro h
  have h2 : ("⚠️ API Error: " ++ a).data = ("From a " ++ b).data := by rw [h]
  rw [String.data_append, String.data_append] at h2
  have h3 := congrArg (List.take 1) h2
  rw [List.take_append_of_le_length (by decide),
    List.take_append_of_le_length (by decide)] at h3
  exact absurd h3 (by decide)

/-- Claim C8: the generator routes every request to exactly the strategy selected
by the client flag, and a failing online call yields the error-text result,
never an offline-generated story. -/
theorem claim_C8_routing (clientPresent : Bool) (svc : Service)
    (role tone text : String) (creativity : ℚ) (length : String)
    (style : List String) (picks : List Nat) (rs : Nat → ℚ) (m : String)
    (hm : ∀ mdl msgs temp, svc mdl msgs temp = Except.error m)
    (ht : strTrim text ≠ "") :
    generate_response clientPresent svc role tone text creativity length
        style picks rs =
      (if clientPresent then
        some (generate_story_with_api svc role tone text creativity length)
      else
        generate_story_offline role tone text creativity length style picks
          rs) ∧
    generate_response true svc role tone text creativity length style picks
        rs = some ("⚠️ API Error: " ++ m) ∧
    (∀ r, generate_story_offline role tone text creativity length style picks
        rs = some r → r ≠ "⚠️ API Error: " ++ m) := by
  refine ⟨rfl, ?_, ?_⟩
  · show some (generate_story_with_api svc role tone text creativity length)
      = _
    unfold generate_story_with_api
    rw [if_neg ht, hm]
    rfl
  · intro r hr
    unfold generate_story_offline at hr
    rw [if_neg ht] at hr
    cases hkk : kOf length with
    | none => rw [hkk] at hr; simp at hr
    | some k =>
      rw [hkk] at hr
      have hr2 : "From a " ++ strLower role ++
          "\x27s perspective, here\x27s a story about " ++ strLower text ++
          ":" ++ "\n\n" ++
          stylize_text style creativity rs
            (joinSep "\n\n" (sample parts picks k)) ++
          "\n\n(Written in a " ++ strLower tone ++ " tone.)" = r :=
        Option.some.inj hr
      intro hcontra
      rw [hcontra] at hr2
      simp only [String.append_assoc] at hr2
      exact error_ne_offline m _ hr2.symm

/-- Claim C8 witness: a client present and a service that always raises. -/
theorem claim_C8_routing_witness :
    (∀ (mdl : String) (msgs : List ChatMessage) (temp : ℚ),
      (fun _ _ _ => Except.error "boom" : Service) mdl msgs temp =
        Except.error "boom") ∧
    strTrim "hi" ≠ "" ∧
    (generate_response true (fun _ _ _ => Except.error "boom") "Poet"
        "Neutral" "hi" 1 "Short" [] [] (fun _ => 0) =
      (if true then
        some (generate_story_with_api (fun _ _ _ => Except.error "boom")
          "Poet" "Neutral" "hi" 1 "Short")
      else
        generate_story_offline "Poet" "Neutral" "hi" 1 "Short" [] []
          (fun _ => 0)) ∧
    generate_response true (fun _ _ _ => Except.error "boom") "Poet"
        "Neutral" "hi" 1 "Short" [] [] (fun _ => 0) =
      some ("⚠️ API Error: " ++ "boom") ∧
    (∀ r, generate_story_offline "Poet" "Neutral" "hi" 1 "Short" [] []
        (fun _ => 0) = some r → r ≠ "⚠️ API Error: " ++ "boom")) :=
  ⟨fun _ _ _ => rfl, by decide,
    claim_C8_routing true (fun _ _ _ => Except.error "boom") "Poet" "Neutral"
      "hi" 1 "Short" [] [] (fun _ => 0) "boom" (fun _ _ _ => rfl) (by decide)⟩

/-- Claim C9: no text the offline strategy can hand to the Alliteration device (a
join of pool sentences, optionally already carrying the Metaphor suffix)
contains "strong", so the replacement of "strong" by "swift and steady" is
the identity on it. -/
theorem claim_C9_alliteration_identity (s : List String)
    (hs : ∀ x ∈ s, x ∈ parts) :
    strReplace (joinSep "\n\n" s) "strong" "swift and steady" =
      joinSep "\n\n" s ∧
    strReplace
        (joinSep "\n\n" s ++ " It’s like painting with light and shadow.")
        "strong" "swift and steady" =
      joinSep "\n\n" s ++ " It’s like painting with light and shadow." := by
  constructor
  · exact strReplace_id (occursB_false_of_not_occurs (join_no_strong s hs))
  · refine strReplace_id (occursB_false_of_not_occurs ?_)
    rw [String.data_append]
    refine not_occurs_append (join_no_strong s hs)
      (not_occurs_of_occursB (by decide)) ?_
    exact head_notin_of_cons
      (show (" It’s like painting with light and shadow." : String).data.head?
        = some ' ' from by decide)
      (by decide)

/-- Claim C9 witness: the full pool joined. -/
theorem claim_C9_alliteration_identity_witness :
    (∀ x ∈ parts, x ∈ parts) ∧
    (strReplace (joinSep "\n\n" parts) "strong" "swift and steady" =
      joinSep "\n\n" parts ∧
    strReplace
        (joinSep "\n\n" parts ++ " It’s like painting with light and shadow.")
        "strong" "swift and steady" =
      joinSep "\n\n" parts ++
        " It’s like painting with light and shadow.") :=
  ⟨fun _ hx => hx, claim_C9_alliteration_identity parts (fun _ hx => hx)⟩
